import Mathlib

/-!
Verification of the authentication dispatcher and error-normalization
pipeline of the fastify-api package.

The definitions below are a shallow embedding of the TypeScript source:
* `src/errors/index.ts`   — `ErrorCode`, `ERROR_STATUS_MAP`, `AppError`
  (constructor, factory methods, `toJSON`), `handleError`,
  `httpStatusToErrorCode`;
* `src/plugins/auth/jwt.ts` and `src/plugins/auth/api-key.ts`
  — `authenticateJWT`, `authenticateAPIKey`;
* `src/routes/index.ts`   — `registerRoute` (pre-handler selection and the
  inline pre-handler for the `'any'` auth requirement);
* `src/app.ts`            — `registerAuth` (conditional decorator
  registration inside `createApp`).

External collaborators (the JWT cryptographic verifier and the injected
API-key validator) are modelled as function parameters, matching their
black-box treatment in the source.
-/

/-- A JSON value, used for wire bodies and the `details` payload. -/
inductive Json where
  | str (s : String)
  | num (n : Int)
  | jbool (b : Bool)
  | null
  | arr (elems : List Json)
  | obj (fields : List (String × Json))

/-- Key lookup in a JSON object (`none` on non-objects or absent keys). -/
def Json.lookup : Json → String → Option Json
  | .obj fields, key => (fields.find? (fun p => p.1 == key)).map (fun p => p.2)
  | _, _ => none

/-- Whether a JSON object carries the given key at all (a key that is
present with value `null` still counts as present, which is exactly the
distinction between an omitted key and an explicit `null`). -/
def Json.hasKey (j : Json) (key : String) : Bool :=
  (j.lookup key).isSome

/-- Extract a JSON string. -/
def Json.asString : Json → Option String
  | .str s => some s
  | _ => none

/-- The closed enumeration of error kinds, from `enum ErrorCode` in
`src/errors/index.ts`. -/
inductive ErrorCode where
  | BAD_REQUEST
  | UNAUTHORIZED
  | FORBIDDEN
  | NOT_FOUND
  | CONFLICT
  | VALIDATION_ERROR
  | RATE_LIMITED
  | INTERNAL_ERROR
  | SERVICE_UNAVAILABLE
  | DATABASE_ERROR
  | EXTERNAL_SERVICE_ERROR
deriving DecidableEq

/-- The string value each `ErrorCode` enum member carries in the source
(TypeScript string enum). -/
def codeToString : ErrorCode → String
  | .BAD_REQUEST => "BAD_REQUEST"
  | .UNAUTHORIZED => "UNAUTHORIZED"
  | .FORBIDDEN => "FORBIDDEN"
  | .NOT_FOUND => "NOT_FOUND"
  | .CONFLICT => "CONFLICT"
  | .VALIDATION_ERROR => "VALIDATION_ERROR"
  | .RATE_LIMITED => "RATE_LIMITED"
  | .INTERNAL_ERROR => "INTERNAL_ERROR"
  | .SERVICE_UNAVAILABLE => "SERVICE_UNAVAILABLE"
  | .DATABASE_ERROR => "DATABASE_ERROR"
  | .EXTERNAL_SERVICE_ERROR => "EXTERNAL_SERVICE_ERROR"

/-- Inverse of `codeToString`, used when parsing a canonical body back. -/
def stringToCode (s : String) : Option ErrorCode :=
  if s == "BAD_REQUEST" then some .BAD_REQUEST
  else if s == "UNAUTHORIZED" then some .UNAUTHORIZED
  else if s == "FORBIDDEN" then some .FORBIDDEN
  else if s == "NOT_FOUND" then some .NOT_FOUND
  else if s == "CONFLICT" then some .CONFLICT
  else if s == "VALIDATION_ERROR" then some .VALIDATION_ERROR
  else if s == "RATE_LIMITED" then some .RATE_LIMITED
  else if s == "INTERNAL_ERROR" then some .INTERNAL_ERROR
  else if s == "SERVICE_UNAVAILABLE" then some .SERVICE_UNAVAILABLE
  else if s == "DATABASE_ERROR" then some .DATABASE_ERROR
  else if s == "EXTERNAL_SERVICE_ERROR" then some .EXTERNAL_SERVICE_ERROR
  else none

/-- `ERROR_STATUS_MAP` from `src/errors/index.ts`: the fixed code → HTTP
status table the `AppError` constructor consults. -/
def ERROR_STATUS_MAP : ErrorCode → Nat
  | .BAD_REQUEST => 400
  | .UNAUTHORIZED => 401
  | .FORBIDDEN => 403
  | .NOT_FOUND => 404
  | .CONFLICT => 409
  | .VALIDATION_ERROR => 422
  | .RATE_LIMITED => 429
  | .INTERNAL_ERROR => 500
  | .SERVICE_UNAVAILABLE => 503
  | .DATABASE_ERROR => 500
  | .EXTERNAL_SERVICE_ERROR => 502

/-- The spec's fixed kind → status table, written from the spec's words
("bad_request→400, unauthorized→401, forbidden→403, not_found→404,
conflict→409, validation_error→422, rate_limited→429, internal→500,
service_unavailable→503, database_error→500,
external_service_error→502"), for comparison with the source's table. -/
def specKindStatusTable : ErrorCode → Nat
  | .BAD_REQUEST => 400
  | .UNAUTHORIZED => 401
  | .FORBIDDEN => 403
  | .NOT_FOUND => 404
  | .CONFLICT => 409
  | .VALIDATION_ERROR => 422
  | .RATE_LIMITED => 429
  | .INTERNAL_ERROR => 500
  | .SERVICE_UNAVAILABLE => 503
  | .DATABASE_ERROR => 500
  | .EXTERNAL_SERVICE_ERROR => 502

/-- The `options` bag of the `AppError` constructor
(`{ details?, cause?, isOperational? }`).  `cause` is a chained underlying
error; only its message is observable in the model (it never serializes
and no code path inspects its structure). -/
structure AppErrorOptions where
  details : Option Json
  cause : Option String
  isOperational : Option Bool

/-- `class AppError` from `src/errors/index.ts`: code, message, the status
code stored by the constructor, optional details, optional cause, and the
`isOperational` flag. -/
structure AppError where
  code : ErrorCode
  message : String
  statusCode : Nat
  details : Option Json
  cause : Option String
  isOperational : Bool

/-- The `AppError` constructor: stores
`statusCode = ERROR_STATUS_MAP[code]`, copies `details` and `cause` from
the options bag, and defaults `isOperational` to `true`
(`options?.isOperational ?? true`). -/
def AppError.make (code : ErrorCode) (message : String)
    (options : Option AppErrorOptions) : AppError :=
  { code := code
    message := message
    statusCode := ERROR_STATUS_MAP code
    details := match options with
      | some o => o.details
      | none => none
    cause := match options with
      | some o => o.cause
      | none => none
    isOperational := match options with
      | some o => o.isOperational.getD true
      | none => true }

/-- `AppError.toJSON`: the canonical wire body
`{ error: { code, message, ...(details && { details }) } }`.  The spread
emits the `details` key only when `details` is present; `cause` is never
serialized. -/
def AppError.toJSON (e : AppError) : Json :=
  Json.obj [("error", Json.obj (
    [("code", Json.str (codeToString e.code)),
     ("message", Json.str e.message)] ++
    (match e.details with
     | some d => [("details", d)]
     | none => [])))]

/-- `AppError.badRequest(message, details?)`. -/
def AppError.badRequest (message : String) (details : Option Json) : AppError :=
  AppError.make .BAD_REQUEST message (some ⟨details, none, none⟩)

/-- `AppError.unauthorized(message = 'Authentication required')`; the
message argument is made explicit in the model. -/
def AppError.unauthorized (message : String) : AppError :=
  AppError.make .UNAUTHORIZED message none

/-- `AppError.forbidden(message = 'Access denied')`. -/
def AppError.forbidden (message : String) : AppError :=
  AppError.make .FORBIDDEN message none

/-- `AppError.notFound(resource, id?)`: message
`"<resource> with id '<id>' not found"` when `id` is given, else
`"<resource> not found"`, and `details = { resource, id }` (the `id` key
vanishes from JSON when `id` is absent, as `undefined` values do). -/
def AppError.notFound (resource : String) (id : Option String) : AppError :=
  AppError.make .NOT_FOUND
    (match id with
     | some i => resource ++ " with id \x27" ++ i ++ "\x27 not found"
     | none => resource ++ " not found")
    (some ⟨some (Json.obj ([("resource", Json.str resource)] ++
      (match id with
       | some i => [("id", Json.str i)]
       | none => []))), none, none⟩)

/-- `AppError.conflict(message, details?)`. -/
def AppError.conflict (message : String) (details : Option Json) : AppError :=
  AppError.make .CONFLICT message (some ⟨details, none, none⟩)

/-- `AppError.validationError(message, details?)`. -/
def AppError.validationError (message : String) (details : Option Json) : AppError :=
  AppError.make .VALIDATION_ERROR message (some ⟨details, none, none⟩)

/-- `AppError.rateLimited(retryAfter?)`: details only when `retryAfter`
is truthy (a JavaScript `0` is falsy, so `0` yields no details). -/
def AppError.rateLimited (retryAfter : Option Nat) : AppError :=
  AppError.make .RATE_LIMITED "Too many requests"
    (some ⟨match retryAfter with
           | some n => if n = 0 then none
               else some (Json.obj [("retryAfter", Json.num n)])
           | none => none, none, none⟩)

/-- `AppError.internal(message = 'Internal server error', cause?)`:
passes `isOperational: false`. -/
def AppError.internal (message : String) (cause : Option String) : AppError :=
  AppError.make .INTERNAL_ERROR message (some ⟨none, cause, some false⟩)

/-- `AppError.serviceUnavailable(message = 'Service temporarily unavailable')`. -/
def AppError.serviceUnavailable (message : String) : AppError :=
  AppError.make .SERVICE_UNAVAILABLE message none

/-- `AppError.databaseError(message, cause?)`: passes
`isOperational: false`. -/
def AppError.databaseError (message : String) (cause : Option String) : AppError :=
  AppError.make .DATABASE_ERROR message (some ⟨none, cause, some false⟩)

/-- `AppError.externalServiceError(service, message, cause?)`. -/
def AppError.externalServiceError (service : String) (message : String)
    (cause : Option String) : AppError :=
  AppError.make .EXTERNAL_SERVICE_ERROR message
    (some ⟨some (Json.obj [("service", Json.str service)]), cause, none⟩)

/-- A call to one of the eleven factory methods of `AppError`, with its
arguments. -/
inductive FactoryCall where
  | badRequest (message : String) (details : Option Json)
  | unauthorized (message : String)
  | forbidden (message : String)
  | notFound (resource : String) (id : Option String)
  | conflict (message : String) (details : Option Json)
  | validationError (message : String) (details : Option Json)
  | rateLimited (retryAfter : Option Nat)
  | internal (message : String) (cause : Option String)
  | serviceUnavailable (message : String)
  | databaseError (message : String) (cause : Option String)
  | externalServiceError (service : String) (message : String) (cause : Option String)

/-- Run a factory call, producing the `AppError` the source factory
returns. -/
def runFactory : FactoryCall → AppError
  | .badRequest m d => AppError.badRequest m d
  | .unauthorized m => AppError.unauthorized m
  | .forbidden m => AppError.forbidden m
  | .notFound r i => AppError.notFound r i
  | .conflict m d => AppError.conflict m d
  | .validationError m d => AppError.validationError m d
  | .rateLimited r => AppError.rateLimited r
  | .internal m c => AppError.internal m c
  | .serviceUnavailable m => AppError.serviceUnavailable m
  | .databaseError m c => AppError.databaseError m c
  | .externalServiceError s m c => AppError.externalServiceError s m c

/-- Parse a canonical wire body back into `(code, message, details)`;
`none` when the body is not of the canonical shape. -/
def parseCanonical (j : Json) : Option (ErrorCode × String × Option Json) :=
  match j.lookup "error" with
  | some inner =>
    match inner.lookup "code", inner.lookup "message" with
    | some cj, some mj =>
      match cj.asString, mj.asString with
      | some cs, some ms =>
        match stringToCode cs with
        | some code => some (code, ms, inner.lookup "details")
        | none => none
      | _, _ => none
    | _, _ => none
  | none => none

/-- A Zod validation issue (`{ path, message }`); path segments are joined
with `.` by the pipeline. -/
structure ZodIssue where
  path : List String
  message : String

/-- A foreign (non-`AppError`) JavaScript error, as observed by the
shape-sniffing branches of `handleError`: its `name`, `message`, a
`statusCode` property when present and numeric, an `issues` property when
present, and its stack text. -/
structure JsError where
  name : String
  message : String
  statusCode : Option Nat
  issues : Option (List ZodIssue)
  stack : String

/-- An error value reaching the normalization pipeline: either an
`AppError` instance or a foreign error. -/
inductive ErrVal where
  | appErr (e : AppError)
  | foreign (j : JsError)

/-- The `isAppError` type guard (`error instanceof AppError`). -/
def isAppError : ErrVal → Bool
  | .appErr _ => true
  | .foreign _ => false

/-- `httpStatusToErrorCode` from `src/errors/index.ts`: the fixed
status → code table with the `>= 500 → INTERNAL_ERROR`,
`< 500 → BAD_REQUEST` fallback. -/
def httpStatusToErrorCode (statusCode : Nat) : ErrorCode :=
  match statusCode with
  | 400 => .BAD_REQUEST
  | 401 => .UNAUTHORIZED
  | 403 => .FORBIDDEN
  | 404 => .NOT_FOUND
  | 409 => .CONFLICT
  | 422 => .VALIDATION_ERROR
  | 429 => .RATE_LIMITED
  | 502 => .EXTERNAL_SERVICE_ERROR
  | 503 => .SERVICE_UNAVAILABLE
  | _ => if statusCode ≥ 500 then .INTERNAL_ERROR else .BAD_REQUEST

/-- The spec's status → kind table, written from the spec's words
("400→bad_request, 401→unauthorized, 403→forbidden, 404→not_found,
409→conflict, 422→validation_error, 429→rate_limited,
502→external_service_error, 503→service_unavailable, any other
≥500→internal, any other <500→bad_request"), for comparison with the
source's `httpStatusToErrorCode`. -/
def specStatusToKind (status : Nat) : ErrorCode :=
  match status with
  | 400 => .BAD_REQUEST
  | 401 => .UNAUTHORIZED
  | 403 => .FORBIDDEN
  | 404 => .NOT_FOUND
  | 409 => .CONFLICT
  | 422 => .VALIDATION_ERROR
  | 429 => .RATE_LIMITED
  | 502 => .EXTERNAL_SERVICE_ERROR
  | 503 => .SERVICE_UNAVAILABLE
  | _ => if status ≥ 500 then .INTERNAL_ERROR else .BAD_REQUEST

/-- A wire response: HTTP status plus JSON body. -/
structure Response where
  status : Nat
  body : Json

/-- The `AppError` the pipeline synthesizes from a foreign HTTP error
(`const appError = new AppError(code, error.message)` in the
`'statusCode' in error` branch of `handleError`). -/
def synthesizeHttpAppError (sc : Nat) (message : String) : AppError :=
  AppError.make (httpStatusToErrorCode sc) message none

/-- `handleError` from `src/errors/index.ts` (the handler installed by
`registerErrorHandler` via `app.setErrorHandler`), restricted to its wire
effect (the `request.log` calls write only to the log):

1. `AppError` → its `statusCode` and `toJSON` body;
2. foreign error with numeric `statusCode` → original status, body of an
   `AppError` synthesized through `httpStatusToErrorCode`;
3. `name === 'ZodError' && 'issues' in error` → 422 with
   `Validation failed` and dot-joined issue paths;
4. otherwise → 500 with `AppError.internal('An unexpected error
   occurred', error)`. -/
def handleError (error : ErrVal) : Response :=
  match error with
  | .appErr e => { status := e.statusCode, body := e.toJSON }
  | .foreign j =>
    match j.statusCode with
    | some sc =>
      { status := sc, body := (synthesizeHttpAppError sc j.message).toJSON }
    | none =>
      if j.name == "ZodError" && j.issues.isSome then
        let appError := AppError.validationError "Validation failed"
          (some (Json.obj [("issues", Json.arr ((j.issues.getD []).map
            (fun issue => Json.obj
              [("path", Json.str (String.intercalate "." issue.path)),
               ("message", Json.str issue.message)])))]))
        { status := appError.statusCode, body := appError.toJSON }
      else
        let unknownError := AppError.internal "An unexpected error occurred"
          (some j.message)
        { status := 500, body := unknownError.toJSON }

/-- The `ErrorCode` carried by a canonical wire body, when the body parses. -/
def bodyErrorCode (resp : Response) : Option ErrorCode :=
  (parseCanonical resp.body).map (fun t => t.1)

/-- Decoded JWT claims attached to the request on bearer success (the
payload shape is opaque to the dispatcher; only `sub` is kept). -/
structure JWTPayload where
  sub : String

/-- `APIKeyInfo` from `src/plugins/auth/api-key.ts`:
`{ id, name?, permissions?, metadata? }`. -/
structure APIKeyInfo where
  id : String
  name : Option String
  permissions : Option (List String)
  metadata : Option Json

/-- An incoming request: its headers, as the list of `(name, value)`
pairs received on the wire. -/
structure Request where
  headers : List (String × String)

/-- JavaScript `String.prototype.startsWith`: prefix test over the
character sequence. -/
def strStartsWith (s pre : String) : Bool :=
  pre.data.isPrefixOf s.data

/-- JavaScript `String.prototype.toLowerCase` over the character
sequence (ASCII header names are all that reach it here). -/
def strToLower (s : String) : String :=
  ⟨s.data.map Char.toLower⟩

/-- Header lookup as Node.js performs it: incoming names are lowercased
at parse time, so a lookup by a lowercase name is case-insensitive in the
wire name.  All lookups in the source use lowercase names
(`request.headers.authorization`, `request.headers['x-api-key']`,
`headerName.toLowerCase()`). -/
def getHeader (headers : List (String × String)) (name : String) : Option String :=
  (headers.find? (fun p => strToLower p.1 == name)).map (fun p => p.2)

/-- The external JWT verifier collaborator (`request.jwtVerify()`):
either decoded claims or a verification failure. -/
def JWTVerifier : Type := Request → Except String JWTPayload

/-- The registered API-key configuration from
`registerAPIKey(app, config)`: the resolved header name
(`config.header ?? 'X-API-Key'`) and the injected validator. -/
structure APIKeyConfig where
  header : String
  validate : String → Option APIKeyInfo

/-- The decorators present on the app instance: `authenticateJWT` when
`registerJWT` ran, `authenticateAPIKey` when `registerAPIKey` ran. -/
structure AppCtx where
  jwt : Option JWTVerifier
  apiKey : Option APIKeyConfig

/-- The sensible-style HTTP error built by
`app.httpErrors.unauthorized(message)`: a foreign error (not an
`AppError`) named `UnauthorizedError` carrying `statusCode = 401`. -/
def httpErrorsUnauthorized (message : String) : JsError :=
  { name := "UnauthorizedError"
    message := message
    statusCode := some 401
    issues := none
    stack := "" }

/-- The outcome of one pre-handler run: success attaching JWT claims,
success attaching an API-key record, a thrown `AppError`, or a foreign
HTTP error sent through `reply.send`. -/
inductive AuthResult where
  | okJwt (claims : JWTPayload)
  | okApiKey (info : APIKeyInfo)
  | thrownApp (e : AppError)
  | sentHttp (err : JsError)

/-- `authenticateJWT` from `src/plugins/auth/jwt.ts`: delegate to
`request.jwtVerify()`; any verification failure is caught and rethrown as
`AppError.unauthorized('Invalid or expired token')`. -/
def authenticateJWT (jwtVerify : JWTVerifier) (request : Request) : AuthResult :=
  match jwtVerify request with
  | .ok payload => .okJwt payload
  | .error _ => .thrownApp (AppError.unauthorized "Invalid or expired token")

/-- `authenticateAPIKey` from `src/plugins/auth/api-key.ts`: read the
configured header (lowercased), treat a missing or empty value
(JavaScript `!apiKey`) as missing, delegate to the injected validator,
and attach the record on success.  Rejections are sent as sensible
`unauthorized` HTTP errors. -/
def authenticateAPIKey (config : APIKeyConfig) (request : Request) : AuthResult :=
  match getHeader request.headers (strToLower config.header) with
  | none => .sentHttp (httpErrorsUnauthorized ("Missing " ++ config.header ++ " header"))
  | some apiKey =>
    if apiKey = "" then
      .sentHttp (httpErrorsUnauthorized ("Missing " ++ config.header ++ " header"))
    else
      match config.validate apiKey with
      | none => .sentHttp (httpErrorsUnauthorized "Invalid API key")
      | some keyInfo => .okApiKey keyInfo

/-- Whether the request carries an `Authorization` header whose value
starts with the exact prefix `Bearer ` — the dispatcher's bearer test
(`authHeader?.startsWith('Bearer ')`). -/
def bearerHeaderPresent (request : Request) : Bool :=
  match getHeader request.headers "authorization" with
  | some v => strStartsWith v "Bearer "
  | none => false

/-- The inline pre-handler `registerRoute` installs for the `'any'` auth
requirement (`src/routes/index.ts`): commit to `authenticateJWT` when the
`Authorization` value starts with `Bearer ` and the JWT decorator exists;
otherwise call `authenticateAPIKey` when the `x-api-key` header is truthy
and the API-key decorator exists; otherwise send
`httpErrors.unauthorized('Authentication required')`. -/
def anyPreHandler (app : AppCtx) (request : Request) : AuthResult :=
  match bearerHeaderPresent request, app.jwt with
  | true, some jwtVerify => authenticateJWT jwtVerify request
  | _, _ =>
    match getHeader request.headers "x-api-key", app.apiKey with
    | some apiKeyHeader, some config =>
      if apiKeyHeader ≠ "" then authenticateAPIKey config request
      else .sentHttp (httpErrorsUnauthorized "Authentication required")
    | _, _ => .sentHttp (httpErrorsUnauthorized "Authentication required")

/-- The four route auth requirements (`AuthType` in
`src/routes/index.ts`). -/
inductive AuthType where
  | jwt
  | apiKey
  | any
  | public

/-- Which pre-handler `registerRoute` installs on the route. -/
inductive PreHandlerSpec where
  | jwtHandler
  | apiKeyHandler
  | anyHandler

/-- The pre-handler selection of `registerRoute`: `'jwt'` and `'apiKey'`
install their decorator only when it exists on the app (no error, no
fallback, when it does not); `'any'` always installs the inline
dispatcher; `'public'` installs nothing. -/
def registerRoutePreHandler (app : AppCtx) : AuthType → Option PreHandlerSpec
  | .jwt => if app.jwt.isSome then some .jwtHandler else none
  | .apiKey => if app.apiKey.isSome then some .apiKeyHandler else none
  | .any => some .anyHandler
  | .public => none

/-- Running the installed pre-handler on a request: `none` when the route
has no pre-handler (the handler then runs with no authentication). -/
def dispatch (app : AppCtx) (auth : AuthType) (request : Request) : Option AuthResult :=
  match auth with
  | .jwt => app.jwt.map (fun jwtVerify => authenticateJWT jwtVerify request)
  | .apiKey => app.apiKey.map (fun config => authenticateAPIKey config request)
  | .any => some (anyPreHandler app request)
  | .public => none

/-- The error value a rejection surfaces to the error pipeline: a thrown
`AppError` arrives as itself; a sensible HTTP error sent through
`reply.send` arrives as a foreign error.  Successes surface nothing. -/
def rejectionToPipeline : AuthResult → Option ErrVal
  | .thrownApp e => some (.appErr e)
  | .sentHttp j => some (.foreign j)
  | .okJwt _ => none
  | .okApiKey _ => none

/-- The `auth.jwt` part of the app config (contents irrelevant to the
dispatcher beyond presence). -/
structure JWTSection where
  secret : String

/-- The `auth.apiKey` part of the app config: the optional header name. -/
structure APIKeySection where
  header : Option String

/-- The `auth` section of the app config. -/
structure AuthConfig where
  jwt : Option JWTSection
  apiKey : Option APIKeySection

/-- The `options` argument of `createApp`
(`{ apiKeyValidator?: (key) => Promise<APIKeyInfo | null> }`). -/
structure AppOptions where
  apiKeyValidator : Option (String → Option APIKeyInfo)

/-- `registerAuth` from `src/app.ts`: register the JWT decorator when
`config.auth?.jwt` is set, and the API-key decorator only when both
`config.auth?.apiKey` and `options?.apiKeyValidator` are supplied —
otherwise the API-key decorator is silently not installed.  The external
JWT verifier stands for the `@fastify/jwt` plugin. -/
def registerAuth (config : Option AuthConfig) (options : Option AppOptions)
    (jwtVerifier : JWTVerifier) : AppCtx :=
  { jwt := match config with
      | some c => match c.jwt with
        | some _ => some jwtVerifier
        | none => none
      | none => none
    apiKey := match config with
      | some c => match c.apiKey, options with
        | some sec, some o => match o.apiKeyValidator with
          | some validate => some { header := sec.header.getD "X-API-Key", validate := validate }
          | none => none
        | _, _ => none
      | none => none }

/-- A startup failure of `createApp` (config validation is the only
throwing step; nothing in `createApp` checks for a missing API-key
validator). -/
def StartupError : Type := String

/-- The auth-relevant effect of `createApp`: it always succeeds in
registering auth — `registerAuth` cannot fail, so a configured `apiKey`
section with no injected validator never raises at startup. -/
def createAppAuth (config : Option AuthConfig) (options : Option AppOptions)
    (jwtVerifier : JWTVerifier) : Except StartupError AppCtx :=
  .ok (registerAuth config options jwtVerifier)

/-- C7: for every one of the eleven `AppError` kinds, constructing an
`AppError` of that kind (through the raw constructor with any message and
options, or through any factory method) yields the status code given by
the spec's fixed kind → status table; the mapping is total over the
closed enumeration and, being a pure function of the kind, never varies
at runtime. -/
theorem appError_statusCode_table :
    (∀ (code : ErrorCode) (message : String) (options : Option AppErrorOptions),
      (AppError.make code message options).statusCode = specKindStatusTable code)
    ∧ (∀ fc : FactoryCall,
      (runFactory fc).statusCode = specKindStatusTable (runFactory fc).code) := by
  constructor
  · intro code message options
    cases code <;> rfl
  · intro fc
    cases fc <;> rfl

/-- C9: serializing any `AppError` with `toJSON` and parsing the result
back reproduces the original kind, message and details; the inner object
never carries a `cause` key, and it carries a `details` key exactly when
the error has details (so an absent `details` is an omitted key, not a
`null` or empty one). -/
theorem appError_toJSON_roundTrip (e : AppError) :
    parseCanonical e.toJSON = some (e.code, e.message, e.details)
    ∧ ((e.toJSON.lookup "error").getD Json.null).hasKey "details" = e.details.isSome
    ∧ ((e.toJSON.lookup "error").getD Json.null).hasKey "cause" = false := by
  obtain ⟨c, m, s, d, cz, o⟩ := e
  cases c <;> cases d <;>
    exact ⟨rfl, rfl, rfl⟩

/-- C9 witness: a concrete round trip at a `notFound` error with details
and at an `unauthorized` error without details. -/
theorem appError_toJSON_roundTrip_witness :
    parseCanonical (AppError.notFound "user" (some "42")).toJSON =
      some (ErrorCode.NOT_FOUND,
        "user with id \x2742\x27 not found",
        some (Json.obj [("resource", Json.str "user"), ("id", Json.str "42")]))
    ∧ (((AppError.unauthorized "nope").toJSON.lookup "error").getD Json.null).hasKey
        "details" = false :=
  ⟨(appError_toJSON_roundTrip (AppError.notFound "user" (some "42"))).1,
   (appError_toJSON_roundTrip (AppError.unauthorized "nope")).2.1⟩

/-- C8 counterexample: the error pipeline's synthesis of an `AppError`
from a foreign HTTP error with status 500 (`new AppError(code,
error.message)` with no options) produces kind `INTERNAL_ERROR` with
`isOperational = true`, because the constructor defaults `isOperational`
to `true`; the claimed biconditional (recoverable iff kind is neither
internal nor database_error) is therefore false for this value. -/
theorem appError_recoverable_counterexample :
    ¬ ((synthesizeHttpAppError 500 "boom").isOperational = true ↔
      ((synthesizeHttpAppError 500 "boom").code ≠ ErrorCode.INTERNAL_ERROR ∧
       (synthesizeHttpAppError 500 "boom").code ≠ ErrorCode.DATABASE_ERROR)) := by
  decide

/-- C8 amended: for every `AppError` produced by one of the eleven
factory methods, `isOperational` is `true` iff the kind is neither
`INTERNAL_ERROR` nor `DATABASE_ERROR` (only `internal` and
`databaseError` pass `isOperational: false`); the raw constructor — and
hence the pipeline's synthesis from a foreign HTTP error — defaults
`isOperational` to `true` regardless of kind. -/
theorem factory_isOperational_iff (fc : FactoryCall) :
    ((runFactory fc).isOperational = true ↔
      ((runFactory fc).code ≠ ErrorCode.INTERNAL_ERROR ∧
       (runFactory fc).code ≠ ErrorCode.DATABASE_ERROR)) := by
  cases fc <;>
    simp [runFactory, AppError.badRequest, AppError.unauthorized, AppError.forbidden,
      AppError.notFound, AppError.conflict, AppError.validationError,
      AppError.rateLimited, AppError.internal, AppError.serviceUnavailable,
      AppError.databaseError, AppError.externalServiceError, AppError.make]

/-- C4: a foreign error carrying a numeric `statusCode` is emitted at its
original status code with the canonical body `{error:{code,message}}`
(no details key), where the code is the spec's status → kind table with
the `≥500 → internal / <500 → bad_request` fallback applied to the
original status, and the message is the original error's message. -/
theorem handleError_http_status (j : JsError) (sc : Nat)
    (h : j.statusCode = some sc) :
    handleError (.foreign j) =
      { status := sc,
        body := Json.obj [("error", Json.obj
          [("code", Json.str (codeToString (specStatusToKind sc))),
           ("message", Json.str j.message)])] } := by
  have htab : httpStatusToErrorCode sc = specStatusToKind sc := rfl
  simp [handleError, h, synthesizeHttpAppError, AppError.make, AppError.toJSON, htab]

/-- A concrete foreign HTTP error with status 418, as
`@fastify/sensible` would produce for `httpErrors.imateapot`. -/
def teapotErr : JsError :=
  { name := "ImATeapotError", message := "I am a teapot",
    statusCode := some 418, issues := none, stack := "" }

/-- C4 witness: a foreign 418 error keeps wire status 418 and gets code
`BAD_REQUEST` via the `<500` fallback, with the original message. -/
theorem handleError_http_status_witness :
    teapotErr.statusCode = some 418
    ∧ handleError (.foreign teapotErr) =
      { status := 418,
        body := Json.obj [("error", Json.obj
          [("code", Json.str "BAD_REQUEST"),
           ("message", Json.str "I am a teapot")])] } :=
  ⟨rfl, handleError_http_status teapotErr 418 rfl⟩

/-- C5: a foreign error with no numeric `statusCode` that is not a Zod
validation error is emitted at status 500 with the fixed body
`{error:{code:"INTERNAL_ERROR", message:"An unexpected error occurred"}}`;
the body is a constant independent of the exception, so any two such
unanticipated exceptions produce identical wire responses and the
original message and stack never reach the wire. -/
theorem handleError_unknown_constant (j : JsError)
    (h1 : j.statusCode = none)
    (h2 : (j.name == "ZodError" && j.issues.isSome) = false) :
    handleError (.foreign j) =
      { status := 500,
        body := Json.obj [("error", Json.obj
          [("code", Json.str "INTERNAL_ERROR"),
           ("message", Json.str "An unexpected error occurred")])] }
    ∧ ∀ j' : JsError, j'.statusCode = none →
        (j'.name == "ZodError" && j'.issues.isSome) = false →
        handleError (.foreign j') = handleError (.foreign j) := by
  constructor
  · simp [handleError, h1, h2, AppError.internal, AppError.make, AppError.toJSON,
      codeToString]
  · intro j' h1' h2'
    simp [handleError, h1, h2, h1', h2', AppError.internal, AppError.make,
      AppError.toJSON]

/-- A concrete unanticipated exception. -/
def typeErr : JsError :=
  { name := "TypeError", message := "Cannot read properties of undefined",
    statusCode := none, issues := none, stack := "at handler (app.js:10)" }

/-- Another concrete unanticipated exception, with a different message
and stack. -/
def rangeErr : JsError :=
  { name := "RangeError", message := "boom",
    statusCode := none, issues := none, stack := "trace" }

/-- C5 witness: two concrete unanticipated exceptions with different
messages and stacks produce the same constant 500 response. -/
theorem handleError_unknown_witness :
    typeErr.statusCode = none
    ∧ handleError (.foreign typeErr) =
      { status := 500,
        body := Json.obj [("error", Json.obj
          [("code", Json.str "INTERNAL_ERROR"),
           ("message", Json.str "An unexpected error occurred")])] }
    ∧ handleError (.foreign rangeErr) = handleError (.foreign typeErr) :=
  ⟨rfl, (handleError_unknown_constant typeErr rfl rfl).1,
   (handleError_unknown_constant typeErr rfl rfl).2 rangeErr rfl rfl⟩

/-- A JWT verifier that rejects every token (models an invalid, expired
or malformed bearer token). -/
def failVerify : JWTVerifier := fun _ => .error "invalid signature"

/-- The key record the example validator resolves for the valid key. -/
def validRecord : APIKeyInfo :=
  { id := "valid-key-123", name := some "API Key",
    permissions := some ["read", "write"], metadata := none }

/-- An injected validator accepting exactly the key `valid-key-123`. -/
def acceptValidator : String → Option APIKeyInfo :=
  fun k => if k = "valid-key-123" then some validRecord else none

/-- The registered API-key configuration with the default header. -/
def defaultKeyCfg : APIKeyConfig :=
  { header := "X-API-Key", validate := acceptValidator }

/-- The registered API-key configuration with a custom header name. -/
def customKeyCfg : APIKeyConfig :=
  { header := "X-Custom-Key", validate := acceptValidator }

/-- Every outcome of `authenticateJWT` is either a success carrying
claims or the thrown `AppError.unauthorized('Invalid or expired
token')`. -/
theorem jwt_shape (verify : JWTVerifier) (req : Request) :
    (∃ c, authenticateJWT verify req = .okJwt c) ∨
      authenticateJWT verify req =
        .thrownApp (AppError.unauthorized "Invalid or expired token") := by
  unfold authenticateJWT
  cases verify req with
  | ok p => exact Or.inl ⟨p, rfl⟩
  | error e => exact Or.inr rfl

/-- Every outcome of `authenticateAPIKey` is either a success carrying a
key record or a sensible 401 `unauthorized` HTTP error. -/
theorem apiKey_shape (config : APIKeyConfig) (req : Request) :
    (∃ i, authenticateAPIKey config req = .okApiKey i) ∨
      (∃ m, authenticateAPIKey config req =
        .sentHttp (httpErrorsUnauthorized m)) := by
  unfold authenticateAPIKey
  cases hh : getHeader req.headers (strToLower config.header) with
  | none => exact Or.inr ⟨_, rfl⟩
  | some k =>
    by_cases hk : k = ""
    · simp only [hk, if_pos rfl]
      exact Or.inr ⟨_, rfl⟩
    · simp only [if_neg hk]
      cases config.validate k with
      | none => exact Or.inr ⟨_, rfl⟩
      | some info => exact Or.inl ⟨info, rfl⟩

/-- Every outcome of the `'any'` pre-handler is a JWT success, an API-key
success, the thrown bearer `AppError`, or a sensible 401 `unauthorized`
HTTP error. -/
theorem any_shape (app : AppCtx) (req : Request) :
    (∃ c, anyPreHandler app req = .okJwt c) ∨
    (∃ i, anyPreHandler app req = .okApiKey i) ∨
    anyPreHandler app req =
      .thrownApp (AppError.unauthorized "Invalid or expired token") ∨
    (∃ m, anyPreHandler app req = .sentHttp (httpErrorsUnauthorized m)) := by
  unfold anyPreHandler
  cases hb : bearerHeaderPresent req with
  | true =>
    cases hj : app.jwt with
    | some verify =>
      rcases jwt_shape verify req with ⟨c, hc⟩ | hthr
      · exact Or.inl ⟨c, hc⟩
      · exact Or.inr (Or.inr (Or.inl hthr))
    | none =>
      cases hx : getHeader req.headers "x-api-key" with
      | some k =>
        cases ha : app.apiKey with
        | some config =>
          by_cases hk : k = ""
          · simp only [hk, ne_eq, not_true_eq_false, if_false]
            exact Or.inr (Or.inr (Or.inr ⟨_, rfl⟩))
          · simp only [ne_eq, hk, not_false_eq_true, if_true]
            rcases apiKey_shape config req with ⟨i, hi⟩ | ⟨m, hm⟩
            · exact Or.inr (Or.inl ⟨i, hi⟩)
            · exact Or.inr (Or.inr (Or.inr ⟨m, hm⟩))
        | none => exact Or.inr (Or.inr (Or.inr ⟨_, rfl⟩))
      | none => exact Or.inr (Or.inr (Or.inr ⟨_, rfl⟩))
  | false =>
    cases hx : getHeader req.headers "x-api-key" with
    | some k =>
      cases ha : app.apiKey with
      | some config =>
        by_cases hk : k = ""
        · simp only [hk, ne_eq, not_true_eq_false, if_false]
          exact Or.inr (Or.inr (Or.inr ⟨_, rfl⟩))
        · simp only [ne_eq, hk, not_false_eq_true, if_true]
          rcases apiKey_shape config req with ⟨i, hi⟩ | ⟨m, hm⟩
          · exact Or.inr (Or.inl ⟨i, hi⟩)
          · exact Or.inr (Or.inr (Or.inr ⟨m, hm⟩))
      | none => exact Or.inr (Or.inr (Or.inr ⟨_, rfl⟩))
    | none => exact Or.inr (Or.inr (Or.inr ⟨_, rfl⟩))

/-- The error pipeline turns a thrown `AppError.unauthorized` into a 401
response whose canonical body carries code `UNAUTHORIZED`. -/
theorem pipeline401_thrown (m : String) :
    (handleError (.appErr (AppError.unauthorized m))).status = 401 ∧
      bodyErrorCode (handleError (.appErr (AppError.unauthorized m))) =
        some ErrorCode.UNAUTHORIZED :=
  ⟨rfl, rfl⟩

/-- The error pipeline turns a sensible 401 `unauthorized` HTTP error
into a 401 response whose canonical body carries code `UNAUTHORIZED`. -/
theorem pipeline401_sent (m : String) :
    (handleError (.foreign (httpErrorsUnauthorized m))).status = 401 ∧
      bodyErrorCode (handleError (.foreign (httpErrorsUnauthorized m))) =
        some ErrorCode.UNAUTHORIZED :=
  ⟨rfl, rfl⟩

/-- C1: on an `'any'` route of an app with the JWT verifier registered,
a request whose `Authorization` value starts with `Bearer ` commits the
dispatcher to bearer verification: the outcome is exactly
`authenticateJWT`'s outcome, it is unchanged under any replacement of
the API-key configuration (so API-key verification is never consulted,
even when a valid key is present), and when bearer verification fails
the request is rejected with the thrown
`AppError.unauthorized('Invalid or expired token')`, whose status code
is 401. -/
theorem anyAuth_bearer_commits (req : Request) (jwtVerify : JWTVerifier)
    (cfg cfg' : Option APIKeyConfig) (v : String)
    (hv : getHeader req.headers "authorization" = some v)
    (hb : strStartsWith v "Bearer " = true) :
    anyPreHandler ⟨some jwtVerify, cfg⟩ req = authenticateJWT jwtVerify req
    ∧ anyPreHandler ⟨some jwtVerify, cfg⟩ req =
        anyPreHandler ⟨some jwtVerify, cfg'⟩ req
    ∧ ∀ emsg, jwtVerify req = .error emsg →
        anyPreHandler ⟨some jwtVerify, cfg⟩ req =
          .thrownApp (AppError.unauthorized "Invalid or expired token")
        ∧ (AppError.unauthorized "Invalid or expired token").statusCode = 401 := by
  have hbp : bearerHeaderPresent req = true := by
    unfold bearerHeaderPresent
    rw [hv]
    exact hb
  have hmain : ∀ c : Option APIKeyConfig,
      anyPreHandler ⟨some jwtVerify, c⟩ req = authenticateJWT jwtVerify req := by
    intro c
    unfold anyPreHandler
    rw [hbp]
  refine ⟨hmain cfg, (hmain cfg).trans (hmain cfg').symm, ?_⟩
  intro emsg herr
  constructor
  · rw [hmain cfg]
    unfold authenticateJWT
    rw [herr]
  · rfl

/-- A request carrying a malformed bearer token and a valid API key. -/
def bearerReq : Request :=
  { headers := [("authorization", "Bearer bad.token.here"),
                ("x-api-key", "valid-key-123")] }

/-- C1 witness: with `Authorization: Bearer bad.token.here` and a valid
`X-API-Key` also present, the dispatcher rejects with the thrown bearer
`AppError` at 401 and never consults the API-key validator. -/
theorem anyAuth_bearer_commits_witness :
    getHeader bearerReq.headers "authorization" = some "Bearer bad.token.here"
    ∧ strStartsWith "Bearer bad.token.here" "Bearer " = true
    ∧ defaultKeyCfg.validate "valid-key-123" = some validRecord
    ∧ anyPreHandler ⟨some failVerify, some defaultKeyCfg⟩ bearerReq =
        .thrownApp (AppError.unauthorized "Invalid or expired token")
    ∧ anyPreHandler ⟨some failVerify, some defaultKeyCfg⟩ bearerReq =
        anyPreHandler ⟨some failVerify, none⟩ bearerReq
    ∧ (AppError.unauthorized "Invalid or expired token").statusCode = 401 :=
  ⟨rfl, by decide, rfl,
   ((anyAuth_bearer_commits bearerReq failVerify (some defaultKeyCfg) none
      "Bearer bad.token.here" rfl (by decide)).2.2 "invalid signature" rfl).1,
   (anyAuth_bearer_commits bearerReq failVerify (some defaultKeyCfg) none
      "Bearer bad.token.here" rfl (by decide)).2.1,
   ((anyAuth_bearer_commits bearerReq failVerify (some defaultKeyCfg) none
      "Bearer bad.token.here" rfl (by decide)).2.2 "invalid signature" rfl).2⟩

/-- A request supplying a valid API key under the custom configured
header `X-Custom-Key`, with no `Authorization` and no `x-api-key`
header. -/
def customHeaderReq : Request :=
  { headers := [("x-custom-key", "valid-key-123")] }

/-- C2 counterexample: with the API-key header configured as
`X-Custom-Key` and a request carrying a valid key under exactly that
header (and no bearer header), the `'any'` dispatcher rejects with
`Authentication required` instead of attempting API-key verification —
it gates on the literal `x-api-key` header, not the configured one,
refuting the claim that it "attempts API-key verification against the
configured API-key header". -/
theorem anyAuth_configured_header_counterexample :
    bearerHeaderPresent customHeaderReq = false
    ∧ getHeader customHeaderReq.headers (strToLower customKeyCfg.header) =
        some "valid-key-123"
    ∧ customKeyCfg.validate "valid-key-123" = some validRecord
    ∧ anyPreHandler ⟨some failVerify, some customKeyCfg⟩ customHeaderReq =
        .sentHttp (httpErrorsUnauthorized "Authentication required") :=
  ⟨rfl, rfl, rfl, rfl⟩

/-- C2 amended: on an `'any'` route with no bearer `Authorization`
header, the dispatcher gates API-key verification on the literal
`x-api-key` header: when that header is present and non-empty (and the
API-key decorator is registered) the outcome is `authenticateAPIKey`'s
outcome against the configured header — so under the default
`X-API-Key` configuration a valid key yields `Authenticated` with the
key record attached — and when the `x-api-key` header is absent or
empty the request is rejected with `Authentication required`, whatever
other headers are present. -/
theorem anyAuth_apiKey_gate (req : Request) (jwtOpt : Option JWTVerifier)
    (config : APIKeyConfig)
    (hb : bearerHeaderPresent req = false) :
    (∀ k, getHeader req.headers "x-api-key" = some k → k ≠ "" →
      anyPreHandler ⟨jwtOpt, some config⟩ req = authenticateAPIKey config req)
    ∧ ((getHeader req.headers "x-api-key" = none ∨
        getHeader req.headers "x-api-key" = some "") →
      anyPreHandler ⟨jwtOpt, some config⟩ req =
        .sentHttp (httpErrorsUnauthorized "Authentication required"))
    ∧ (∀ k info, getHeader req.headers "x-api-key" = some k → k ≠ "" →
        config.header = "X-API-Key" → config.validate k = some info →
        anyPreHandler ⟨jwtOpt, some config⟩ req = .okApiKey info) := by
  have harm : ∀ r : AuthResult,
      (match getHeader req.headers "x-api-key", (some config : Option APIKeyConfig) with
        | some apiKeyHeader, some config =>
          if apiKeyHeader ≠ "" then authenticateAPIKey config req
          else .sentHttp (httpErrorsUnauthorized "Authentication required")
        | _, _ => .sentHttp (httpErrorsUnauthorized "Authentication required")) = r →
      anyPreHandler ⟨jwtOpt, some config⟩ req = r := by
    intro r hr
    unfold anyPreHandler
    rw [hb]
    cases jwtOpt with
    | none => exact hr
    | some verify => exact hr
  refine ⟨?_, ?_, ?_⟩
  · intro k hk hkne
    apply harm
    rw [hk]
    simp only [ne_eq, hkne, not_false_eq_true, if_true]
  · intro habs
    apply harm
    rcases habs with h0 | h0
    · rw [h0]
    · rw [h0]
      simp
  · intro k info hk hkne hheader hval
    have h1 : anyPreHandler ⟨jwtOpt, some config⟩ req = authenticateAPIKey config req := by
      apply harm
      rw [hk]
      simp only [ne_eq, hkne, not_false_eq_true, if_true]
    rw [h1]
    unfold authenticateAPIKey
    rw [hheader]
    have hlower : strToLower "X-API-Key" = "x-api-key" := by decide
    rw [hlower, hk]
    simp only [if_neg hkne]
    rw [hval]

/-- A request carrying only a valid `x-api-key` header. -/
def apiKeyReq : Request :=
  { headers := [("x-api-key", "valid-key-123")] }

/-- A request with no credentials at all. -/
def noCredReq : Request :=
  { headers := [] }

/-- C2 witness: with only `X-API-Key: valid-key-123` under the default
configuration the dispatcher authenticates via the API key and attaches
the record; with no credentials at all it rejects with
`Authentication required`. -/
theorem anyAuth_apiKey_gate_witness :
    bearerHeaderPresent apiKeyReq = false
    ∧ anyPreHandler ⟨some failVerify, some defaultKeyCfg⟩ apiKeyReq =
        .okApiKey validRecord
    ∧ anyPreHandler ⟨some failVerify, some defaultKeyCfg⟩ noCredReq =
        .sentHttp (httpErrorsUnauthorized "Authentication required") :=
  ⟨rfl,
   (anyAuth_apiKey_gate apiKeyReq (some failVerify) defaultKeyCfg rfl).2.2
     "valid-key-123" validRecord rfl (by decide) rfl rfl,
   (anyAuth_apiKey_gate noCredReq (some failVerify) defaultKeyCfg rfl).2.1
     (Or.inl rfl)⟩

/-- The `Missing <header> header` rejection message never coincides with
the `Authentication required` message, whatever the configured header
name. -/
theorem missing_msg_ne (h : String) :
    ("Missing " ++ h ++ " header") ≠ "Authentication required" := by
  intro heq
  have hd : ("Missing " ++ h ++ " header").data =
      "Authentication required".data := by rw [heq]
  simp [String.data_append] at hd

/-- No outcome of `authenticateAPIKey` is the `Authentication required`
rejection: its rejections say `Missing <header> header` or
`Invalid API key`. -/
theorem authenticateAPIKey_ne_authRequired (config : APIKeyConfig) (req : Request) :
    authenticateAPIKey config req ≠
      .sentHttp (httpErrorsUnauthorized "Authentication required") := by
  intro hc
  unfold authenticateAPIKey at hc
  split at hc
  · simp only [AuthResult.sentHttp.injEq, httpErrorsUnauthorized,
      JsError.mk.injEq] at hc
    exact missing_msg_ne config.header hc.2.1
  · split at hc
    · simp only [AuthResult.sentHttp.injEq, httpErrorsUnauthorized,
        JsError.mk.injEq] at hc
      exact missing_msg_ne config.header hc.2.1
    · split at hc
      · simp only [AuthResult.sentHttp.injEq, httpErrorsUnauthorized,
          JsError.mk.injEq] at hc
        exact absurd hc.2.1 (by decide)
      · exact AuthResult.noConfusion hc

/-- C10: on an `'any'` route with the API-key decorator registered, an
`Authorization` header whose value does not start with the exact
case-sensitive prefix `Bearer ` is not treated as a bearer credential:
the outcome is independent of the JWT verifier (JWT verification is
skipped entirely), the dispatcher proceeds to `authenticateAPIKey`
whenever a non-empty `x-api-key` header is present, and the
`Authentication required` rejection occurs exactly when no (non-empty)
`x-api-key` header is present. -/
theorem anyAuth_nonBearer (req : Request) (config : APIKeyConfig) (v : String)
    (hv : getHeader req.headers "authorization" = some v)
    (hb : strStartsWith v "Bearer " = false) :
    (∀ j j' : Option JWTVerifier,
      anyPreHandler ⟨j, some config⟩ req = anyPreHandler ⟨j', some config⟩ req)
    ∧ (∀ k, getHeader req.headers "x-api-key" = some k → k ≠ "" →
        ∀ j, anyPreHandler ⟨j, some config⟩ req = authenticateAPIKey config req)
    ∧ (∀ j, anyPreHandler ⟨j, some config⟩ req =
          .sentHttp (httpErrorsUnauthorized "Authentication required") ↔
        (getHeader req.headers "x-api-key" = none ∨
         getHeader req.headers "x-api-key" = some "")) := by
  have hbp : bearerHeaderPresent req = false := by
    unfold bearerHeaderPresent
    rw [hv]
    exact hb
  have hgate := fun j => anyAuth_apiKey_gate req j config hbp
  refine ⟨?_, ?_, ?_⟩
  · intro j j'
    cases hx : getHeader req.headers "x-api-key" with
    | none => rw [(hgate j).2.1 (Or.inl hx), (hgate j').2.1 (Or.inl hx)]
    | some k =>
      by_cases hk : k = ""
      · rw [hk] at hx
        rw [(hgate j).2.1 (Or.inr hx), (hgate j').2.1 (Or.inr hx)]
      · rw [(hgate j).1 k hx hk, (hgate j').1 k hx hk]
  · intro k hk hkne j
    exact (hgate j).1 k hk hkne
  · intro j
    constructor
    · intro hr
      cases hx : getHeader req.headers "x-api-key" with
      | none => exact Or.inl rfl
      | some k =>
        by_cases hk : k = ""
        · subst hk
          exact Or.inr rfl
        · rw [(hgate j).1 k hx hk] at hr
          exact absurd hr (authenticateAPIKey_ne_authRequired config req)
    · intro habs
      exact (hgate j).2.1 habs

/-- A request with a Basic credential and no API key. -/
def basicReq : Request :=
  { headers := [("authorization", "Basic dXNlcg==")] }

/-- A request with a lowercase `bearer` scheme and a valid API key. -/
def lowerBearerReq : Request :=
  { headers := [("authorization", "bearer x.y.z"),
                ("x-api-key", "valid-key-123")] }

/-- C10 witness: `Authorization: Basic dXNlcg==` with no API key is
rejected with `Authentication required`; lowercase `bearer x.y.z` with a
valid `x-api-key` proceeds to API-key verification. -/
theorem anyAuth_nonBearer_witness :
    strStartsWith "Basic dXNlcg==" "Bearer " = false
    ∧ anyPreHandler ⟨some failVerify, some defaultKeyCfg⟩ basicReq =
        .sentHttp (httpErrorsUnauthorized "Authentication required")
    ∧ strStartsWith "bearer x.y.z" "Bearer " = false
    ∧ anyPreHandler ⟨some failVerify, some defaultKeyCfg⟩ lowerBearerReq =
        authenticateAPIKey defaultKeyCfg lowerBearerReq
    ∧ authenticateAPIKey defaultKeyCfg lowerBearerReq = .okApiKey validRecord :=
  ⟨by decide,
   ((anyAuth_nonBearer basicReq defaultKeyCfg "Basic dXNlcg==" rfl
      (by decide)).2.2 (some failVerify)).mpr (Or.inl rfl),
   by decide,
   (anyAuth_nonBearer lowerBearerReq defaultKeyCfg "bearer x.y.z" rfl
      (by decide)).2.1 "valid-key-123" rfl (by decide) (some failVerify),
   rfl⟩

/-- An app with both verifiers registered (JWT rejecting, default
API-key configuration). -/
def app0 : AppCtx := { jwt := some failVerify, apiKey := some defaultKeyCfg }

/-- C3 counterexample: the neither-credential rejection of the `'any'`
dispatcher surfaces `app.httpErrors.unauthorized('Authentication
required')` — a sensible HTTP error, for which the `isAppError` type
guard is false — to the error pipeline, refuting the claim that the
dispatcher never produces a foreign (non-`AppError`) error type. -/
theorem dispatcher_foreign_error_counterexample :
    rejectionToPipeline (anyPreHandler app0 noCredReq) =
      some (.foreign (httpErrorsUnauthorized "Authentication required"))
    ∧ isAppError (.foreign (httpErrorsUnauthorized "Authentication required")) =
        false :=
  ⟨rfl, rfl⟩

/-- C3 amended: every rejection the authentication dispatcher produces —
under any of the `jwt`, `apiKey` or `any` requirements and for every
rejection cause — surfaces to the error pipeline exactly one error that
normalizes to a 401 response whose canonical body carries code
`UNAUTHORIZED`; however, only the bearer path throws an `AppError`
directly — the API-key and neither-credential paths send the
framework's generic 401 `unauthorized` HTTP error, a foreign type that
the pipeline's status-code branch converts to kind unauthorized. -/
theorem dispatch_rejections_401 (app : AppCtx) (auth : AuthType) (req : Request)
    (r : AuthResult) (ev : ErrVal)
    (hd : dispatch app auth req = some r)
    (he : rejectionToPipeline r = some ev) :
    (handleError ev).status = 401 ∧
      bodyErrorCode (handleError ev) = some ErrorCode.UNAUTHORIZED := by
  have shapes : (∃ c, r = .okJwt c) ∨ (∃ i, r = .okApiKey i) ∨
      r = .thrownApp (AppError.unauthorized "Invalid or expired token") ∨
      (∃ m, r = .sentHttp (httpErrorsUnauthorized m)) := by
    cases auth with
    | public => simp [dispatch] at hd
    | jwt =>
      cases hj : app.jwt with
      | none => simp [dispatch, hj] at hd
      | some verify =>
        simp only [dispatch, hj, Option.map_some', Option.some.injEq] at hd
        rcases jwt_shape verify req with ⟨c, hc⟩ | hthr
        · exact Or.inl ⟨c, by rw [← hd, hc]⟩
        · exact Or.inr (Or.inr (Or.inl (by rw [← hd, hthr])))
    | apiKey =>
      cases ha : app.apiKey with
      | none => simp [dispatch, ha] at hd
      | some config =>
        simp only [dispatch, ha, Option.map_some', Option.some.injEq] at hd
        rcases apiKey_shape config req with ⟨i, hi⟩ | ⟨m, hm⟩
        · exact Or.inr (Or.inl ⟨i, by rw [← hd, hi]⟩)
        · exact Or.inr (Or.inr (Or.inr ⟨m, by rw [← hd, hm]⟩))
    | any =>
      simp only [dispatch, Option.some.injEq] at hd
      rcases any_shape app req with ⟨c, hc⟩ | ⟨i, hi⟩ | hthr | ⟨m, hm⟩
      · exact Or.inl ⟨c, by rw [← hd, hc]⟩
      · exact Or.inr (Or.inl ⟨i, by rw [← hd, hi]⟩)
      · exact Or.inr (Or.inr (Or.inl (by rw [← hd, hthr])))
      · exact Or.inr (Or.inr (Or.inr ⟨m, by rw [← hd, hm]⟩))
  rcases shapes with ⟨c, hc⟩ | ⟨i, hi⟩ | hthr | ⟨m, hm⟩
  · rw [hc] at he
    simp [rejectionToPipeline] at he
  · rw [hi] at he
    simp [rejectionToPipeline] at he
  · rw [hthr] at he
    simp only [rejectionToPipeline, Option.some.injEq] at he
    rw [← he]
    exact pipeline401_thrown "Invalid or expired token"
  · rw [hm] at he
    simp only [rejectionToPipeline, Option.some.injEq] at he
    rw [← he]
    exact pipeline401_sent m

/-- C3 witness: the concrete neither-credential rejection on an `'any'`
route normalizes to a 401 response with canonical code `UNAUTHORIZED`. -/
theorem dispatch_rejections_401_witness :
    (handleError (.foreign (httpErrorsUnauthorized "Authentication required"))).status =
      401
    ∧ bodyErrorCode
        (handleError (.foreign (httpErrorsUnauthorized "Authentication required"))) =
      some ErrorCode.UNAUTHORIZED :=
  dispatch_rejections_401 app0 .any noCredReq
    (.sentHttp (httpErrorsUnauthorized "Authentication required"))
    (.foreign (httpErrorsUnauthorized "Authentication required")) rfl rfl

/-- App config with API-key auth configured (default header) and no JWT. -/
def apiKeyOnlyConfig : Option AuthConfig :=
  some { jwt := none, apiKey := some { header := none } }

/-- `createApp` options that supply no API-key validator. -/
def noValidatorOptions : Option AppOptions :=
  some { apiKeyValidator := none }

/-- C6: configuring API-key auth without supplying a validator is not a
startup error — `createApp` succeeds, the API-key decorator is silently
not registered, and `registerRoute` then installs no pre-handler at all
on a route declaring `apiKey` auth, identical to a `public` route: the
route is served with no API-key verification (a silent pass), contrary
to the claim that this must be a startup-time configuration error. -/
theorem apiKey_without_validator_silent_pass (jwtVerifier : JWTVerifier) :
    createAppAuth apiKeyOnlyConfig noValidatorOptions jwtVerifier =
      .ok { jwt := none, apiKey := none }
    ∧ registerRoutePreHandler
        (registerAuth apiKeyOnlyConfig noValidatorOptions jwtVerifier) .apiKey = none
    ∧ registerRoutePreHandler
        (registerAuth apiKeyOnlyConfig noValidatorOptions jwtVerifier) .apiKey =
      registerRoutePreHandler
        (registerAuth apiKeyOnlyConfig noValidatorOptions jwtVerifier) .public :=
  ⟨rfl, rfl, rfl⟩

/-- C7 witness: a concrete construction at the `DATABASE_ERROR` kind
stores status 500. -/
theorem appError_statusCode_table_witness :
    (AppError.make .DATABASE_ERROR "db down" none).statusCode = 500 :=
  appError_statusCode_table.1 .DATABASE_ERROR "db down" none

/-- C8 amended witness: the `internal` factory produces a
non-recoverable error of kind `INTERNAL_ERROR`. -/
theorem factory_isOperational_iff_witness :
    ((runFactory (.internal "fail" none)).isOperational = true ↔
      ((runFactory (.internal "fail" none)).code ≠ ErrorCode.INTERNAL_ERROR ∧
       (runFactory (.internal "fail" none)).code ≠ ErrorCode.DATABASE_ERROR)) :=
  factory_isOperational_iff (.internal "fail" none)

/-- C6 witness: with a concrete verifier, startup still succeeds with no
API-key decorator registered. -/
theorem apiKey_without_validator_silent_pass_witness :
    createAppAuth apiKeyOnlyConfig noValidatorOptions failVerify =
      .ok { jwt := none, apiKey := none } :=
  (apiKey_without_validator_silent_pass failVerify).1
